import Mathlib

/-!
Verification of the pull-request fetch engine (api.py, github.py,
pull_request.py) against its specification.

The Python source is shallowly embedded:
* JSON record dicts become the structure `Raw`; `dict.get(key)` becomes an
  `Option String` field (`none` models an absent key).
* Python string comparison (`<` on `str`, used for ISO-8601 timestamps)
  is lexicographic on Unicode code points; it is embedded as `pyStrLt`.
* A comparison of `None` with a string raises `TypeError` in Python, so the
  date filter returns `Option` (`none` models the raised `TypeError`).
* The HTTP transport is a function `Nat → Response` from page number to the
  page's response; `Response.body` models `response.json()` already decoded
  into a list of record dicts.
* The unbounded `while True:` pagination loop takes an explicit fuel
  argument; exhausting fuel is a distinct outcome (`PRResult.outOfFuel`).
* Raised exceptions (`GetPullRequestsError`, `TypeError`, `IndexError`)
  become the corresponding `PRResult` constructors; a raise discards the
  locally accumulated records, so those constructors carry no record list.
-/

/-- One raw pull-request payload as returned by the remote API
(`pull_request.py` reads it through `self.raw.get(...)`).  Only the
timestamp fields that the verified claims touch are modelled; `none`
models a key absent from the JSON object. -/
structure Raw where
  created_at : Option String
  updated_at : Option String
  merged_at : Option String
  closed_at : Option String
deriving DecidableEq, Repr

/-- `PullRequest.__init__` stores the raw dict (`self.raw = pull_request`). -/
structure PullRequest where
  raw : Raw
deriving DecidableEq, Repr

/-- `PullRequest.created`: `return self.raw.get('created_at')`. -/
def PullRequest.created (pr : PullRequest) : Option String :=
  pr.raw.created_at

/-- `PullRequest.updated`: `return self.raw.get('updated_at')`. -/
def PullRequest.updated (pr : PullRequest) : Option String :=
  pr.raw.updated_at

/-- `PullRequest.merged`: `return self.raw.get('merged_at')`. -/
def PullRequest.merged (pr : PullRequest) : Option String :=
  pr.raw.merged_at

/-- `PullRequest.closed`: the source reads `self.raw.get('merged_at')`
(pull_request.py line 66), not `closed_at`, although its docstring says
"Get the closed date". -/
def PullRequest.closed (pr : PullRequest) : Option String :=
  pr.raw.merged_at

/-- `PullRequest.isClosed`: `return False if self.closed is None else True`. -/
def PullRequest.isClosed (pr : PullRequest) : Bool :=
  match pr.closed with
  | none => false
  | some _ => true

/-- `PullRequest.isMerged`: `return False if self.merged is None else True`. -/
def PullRequest.isMerged (pr : PullRequest) : Bool :=
  match pr.merged with
  | none => false
  | some _ => true

/-- Python `<` on lists of Unicode code points: lexicographic. -/
def pyStrLtAux : List Char → List Char → Bool
  | [], [] => false
  | [], _ :: _ => true
  | _ :: _, [] => false
  | a :: as, b :: bs =>
    if a.toNat < b.toNat then true
    else if b.toNat < a.toNat then false
    else pyStrLtAux as bs

/-- Python `a < b` on `str`: lexicographic comparison by code point.
ISO-8601 timestamps (zero-padded, uniform time zone) compare
chronologically under this order, which is what both the date filter and
the pagination stop test rely on. -/
def pyStrLt (a b : String) : Bool :=
  pyStrLtAux a.data b.data

/-- The `latest_date` half of `filter_func` in `GitHub.__date_filter`:
`if latest_date is not None and pull_request.updated > latest_date.isoformat():
return False` followed by `return True`.  The result is `none` when Python
would raise `TypeError` (comparing `None` with `str`). -/
def filter_func_latest (latest_date : Option String) (pull_request : PullRequest) :
    Option Bool :=
  match latest_date with
  | none => some true
  | some l =>
    match pull_request.updated with
    | none => none
    | some u => if pyStrLt l u then some false else some true

/-- `filter_func` inside `GitHub.__date_filter`.  `oldest_date` and
`latest_date` are already the `isoformat()` strings of the datetime bounds
(`none` models a `None` bound).  `none` as a result models a raised
`TypeError` from comparing an absent `updated_at` with a string. -/
def filter_func (oldest_date latest_date : Option String)
    (pull_request : PullRequest) : Option Bool :=
  if oldest_date.isNone && latest_date.isNone then some true
  else
    match oldest_date with
    | none => filter_func_latest latest_date pull_request
    | some o =>
      match pull_request.updated with
      | none => none
      | some u =>
        if pyStrLt u o then some false
        else filter_func_latest latest_date pull_request

/-- `GitHub.__date_filter`: `list(filter(filter_func, pull_requests))`.
`none` models the `TypeError` that `list(filter(...))` would propagate. -/
def date_filter (oldest_date latest_date : Option String) :
    List PullRequest → Option (List PullRequest)
  | [] => some []
  | pr :: rest =>
    match filter_func oldest_date latest_date pr with
    | none => none
    | some b =>
      match date_filter oldest_date latest_date rest with
      | none => none
      | some l => some (if b then pr :: l else l)

/-- One page response of the transport; `body` models `response.json()`
already decoded into the list of record dicts. -/
structure Response where
  status_code : Nat
  body : List Raw
deriving DecidableEq, Repr

/-- Outcome of one call to `GitHub.get_pull_requests`.  A raised exception
discards the locally accumulated records, so the error constructors carry
none. -/
inductive PRResult
  | ok (records : List PullRequest)
  | fetchError
  | typeError
  | indexError
  | outOfFuel
deriving DecidableEq, Repr

/-- Result of one iteration of the `while True:` loop body in
`GitHub.get_pull_requests`: either the loop ends at this page (by `break`,
returning the accumulated records, or by a raised exception), or it
proceeds to the next page with an updated accumulator. -/
inductive PageStep
  | halt (res : PRResult)
  | next (pull_reqs : List PullRequest)
deriving DecidableEq, Repr

/-- One iteration of the loop body of `GitHub.get_pull_requests`, given the
page's response and the records accumulated so far:
check `__success` (expected status 200), decode the page into
`PullRequest` objects, date-filter and append them when the page is
non-empty, then evaluate the stop condition
`count < per_page or (oldest_date is not None and
partial_pull_reqs[-1].updated < oldest_date.isoformat())`.
`partial_pull_reqs[-1]` on an empty list raises `IndexError`. -/
def page_step (per_page : Int) (oldest_date latest_date : Option String)
    (resp : Response) (pull_reqs : List PullRequest) : PageStep :=
  if resp.status_code ≠ 200 then PageStep.halt PRResult.fetchError
  else
    let page_pull_reqs := resp.body.map PullRequest.mk
    let count := page_pull_reqs.length
    match (if 0 < count then
        (date_filter oldest_date latest_date page_pull_reqs).map
          (fun l => pull_reqs ++ l)
      else some pull_reqs) with
    | none => PageStep.halt PRResult.typeError
    | some acc =>
      if (count : Int) < per_page then PageStep.halt (PRResult.ok acc)
      else
        match oldest_date with
        | none => PageStep.next acc
        | some o =>
          match page_pull_reqs.getLast? with
          | none => PageStep.halt PRResult.indexError
          | some last =>
            match last.updated with
            | none => PageStep.halt PRResult.typeError
            | some u =>
              if pyStrLt u o then PageStep.halt (PRResult.ok acc)
              else PageStep.next acc

/-- The paginated loop of `GitHub.get_pull_requests`: `params['page']`
starts at 0 and is incremented at the top of each iteration, so page
`page + 1` is requested next.  Returns the list of page numbers requested
together with the outcome.  `fuel` bounds the number of iterations of the
source's unbounded `while True:` loop. -/
def get_pull_requests_aux (fetch : Nat → Response) (per_page : Int)
    (oldest_date latest_date : Option String) :
    Nat → List PullRequest → Nat → List Nat × PRResult
  | _page, _pull_reqs, 0 => ([], PRResult.outOfFuel)
  | page, pull_reqs, fuel + 1 =>
    match page_step per_page oldest_date latest_date (fetch (page + 1)) pull_reqs with
    | PageStep.halt res => ([page + 1], res)
    | PageStep.next acc =>
      let r := get_pull_requests_aux fetch per_page oldest_date latest_date
        (page + 1) acc fuel
      ((page + 1) :: r.1, r.2)

/-- `GitHub.get_pull_requests`: start at `params['page'] = 0` with an empty
accumulator.  `oldest_date` and `latest_date` are the `isoformat()` strings
of the datetime bounds (`none` models `None`). -/
def get_pull_requests (fetch : Nat → Response)
    (oldest_date latest_date : Option String) (per_page : Int) (fuel : Nat) :
    List Nat × PRResult :=
  get_pull_requests_aux fetch per_page oldest_date latest_date 0 [] fuel

/-- The termination condition of the claim, evaluated on one unfiltered
page body: `count < per_page`, or `oldest_date` is given and the last
record's `updated_at` is strictly earlier than it. -/
def stop_body (per_page : Int) (oldest_date : Option String)
    (body : List Raw) : Bool :=
  decide ((body.length : Int) < per_page) ||
    (match oldest_date, body.getLast? with
     | some o, some last =>
       match last.updated_at with
       | some u => pyStrLt u o
       | none => false
     | _, _ => false)

/-- `rate_limit_sleep(headers)` in api.py, with the two relevant headers
pre-extracted (`none` models an absent header; values are the integers
`int(...)` would produce) and the current epoch second passed explicitly
in place of `time.time()`.  The source initialises `sleep_time = 60`,
overwrites it with `int(headers.get('Retry-After', sleep_time))`, and then,
whenever `X-RateLimit-Reset` is present, overwrites it again with
`int(xrlr) - int(time.time())`. -/
def rate_limit_sleep (retry_after x_rate_limit_reset : Option Int)
    (now_epoch : Int) : Int :=
  let sleep_time : Int := 60
  let sleep_time :=
    match retry_after with
    | some v => v
    | none => sleep_time
  match x_rate_limit_reset with
  | some v => v - now_epoch
  | none => sleep_time

/-- A response object as seen by `Api.success`.  `status_code = none` or
`text = none` model a missing attribute (including `response` being
`None`), whose access raises `AttributeError`; `json_ok` models whether
`response.json()` parses (`False` means it raises a `ValueError`). -/
structure PyResponse where
  status_code : Option Nat
  text : Option String
  json_ok : Bool
deriving DecidableEq, Repr

/-- Outcome of `Api.success`: a returned boolean, or an uncaught
exception. -/
inductive SuccessOutcome
  | ret (b : Bool)
  | valueError
deriving DecidableEq, Repr

/-- `Api.success(response, status_code, output)`: inside
`try: ... except AttributeError: return False`, compare
`response.status_code != status_code`; on mismatch, when `response.text`
is truthy and `output` is set, print `json.dumps(response.json(), ...)` —
`response.json()` raises a `ValueError` when the body is not valid JSON,
and only `AttributeError` is caught. -/
def Api_success (response : PyResponse) (status_code : Nat) (output : Bool) :
    SuccessOutcome :=
  match response.status_code with
  | none => SuccessOutcome.ret false
  | some sc =>
    if sc ≠ status_code then
      match response.text with
      | none => SuccessOutcome.ret false
      | some t =>
        if t ≠ "" ∧ output = true then
          if response.json_ok then SuccessOutcome.ret false
          else SuccessOutcome.valueError
        else SuccessOutcome.ret false
    else SuccessOutcome.ret true

/-- Modelled from the `requests` library: `requests.utils.default_headers()`
returns a dict that contains a default `User-Agent` entry (among others);
only the entries relevant to the claims are listed. -/
def requests_default_headers : List (String × String) :=
  [("User-Agent", "python-requests/2.32.3"),
   ("Accept-Encoding", "gzip, deflate"),
   ("Accept", "*/*"),
   ("Connection", "keep-alive")]

/-- Python `dict.update({k: v})` on an association list: replace in place
when the key exists, otherwise append. -/
def dict_update (h : List (String × String)) (k v : String) :
    List (String × String) :=
  if h.any (fun kv => kv.1 == k) then
    h.map (fun kv => if kv.1 == k then (k, v) else kv)
  else h ++ [(k, v)]

/-- The header dict built by `Api.__init__`: start from
`requests.utils.default_headers()`, update `User-Agent` only when a custom
one is given, then update `Accept` and `Authorization` — the source writes
`f'Bearer: {token}'` (api.py line 104), with a colon after `Bearer`. -/
def Api_init_headers (token : String) (user_agent : Option String) :
    List (String × String) :=
  let headers := requests_default_headers
  let headers :=
    match user_agent with
    | none => headers
    | some ua => dict_update headers "User-Agent" ua
  let headers := dict_update headers "Accept" "application/vnd.github+json"
  dict_update headers "Authorization" ("Bearer: " ++ token)

/-- The mutable state of an `Api` object that `__send` touches: its stored
header dict `self.__headers`. -/
structure ApiState where
  headers : List (String × String)
deriving DecidableEq, Repr

/-- The headers actually sent by `Api.__send`:
`headers = copy.deepcopy(self.__headers)` followed by
`headers.update({'X-GitHub-Api-Version': version})` when a version is
given.  The update acts on the deep copy, never on the stored dict. -/
def Api_send_headers (s : ApiState) (version : Option String) :
    List (String × String) :=
  let headers := s.headers
  match version with
  | some v => dict_update headers "X-GitHub-Api-Version" v
  | none => headers

/-- `Api.__send` as a state transformer: it returns the headers used for
this call and the object state afterwards.  Because the per-call update is
applied to a deep copy, `self.__headers` is never reassigned or mutated,
so the state component is returned unchanged. -/
def Api_send (s : ApiState) (version : Option String) :
    List (String × String) × ApiState :=
  (Api_send_headers s version, s)

/-- `datetime.timedelta.days`: Python normalises a timedelta of
`total_seconds` seconds so that `days` is the floor division by 86400. -/
def timedelta_days (total_seconds : Int) : Int :=
  total_seconds.fdiv 86400

/-- `datetime.timedelta.seconds`: the sub-day remainder, always in
`[0, 86400)` (Python floor-mod against the positive constant 86400). -/
def timedelta_seconds (total_seconds : Int) : Int :=
  total_seconds.fmod 86400

/-- The `days` component of `PullRequest.age`: `diff = now - created;
days = diff.days`.  Timestamps are modelled as epoch seconds (the result
of `datetime.fromisoformat`). -/
def age_days (created now : Int) : Int :=
  timedelta_days (now - created)

/-- The `hours` component of `PullRequest.age`:
`hours = diff.seconds / 3600.0` — computed from the sub-day remainder
only, never from the total elapsed time.  Python float division of these
small integers is exact, so it is modelled in `ℚ`. -/
def age_hours (created now : Int) : ℚ :=
  (timedelta_seconds (now - created) : ℚ) / 3600

/-- The reference instant used by `PullRequest.age`:
`fromisoformat(self.merged)` if `isMerged()`, else
`fromisoformat(self.closed)` if `isClosed()`, else `datetime.now()`.
`iso_to_epoch` models `datetime.fromisoformat` composed with conversion to
epoch seconds; `now` models the current instant. -/
def age_instant (pr : PullRequest) (now : Int) (iso_to_epoch : String → Int) :
    Int :=
  if pr.isMerged then iso_to_epoch (pr.merged.getD "")
  else if pr.isClosed then iso_to_epoch (pr.closed.getD "")
  else now

/-- Concatenating the per-page results of the date filter in page order
(the claim's left-hand side); any page's `TypeError` aborts the whole
accumulation. -/
def date_filter_pages (oldest_date latest_date : Option String) :
    List (List PullRequest) → Option (List PullRequest)
  | [] => some []
  | page :: rest =>
    match date_filter oldest_date latest_date page,
        date_filter_pages oldest_date latest_date rest with
    | some a, some b => some (a ++ b)
    | _, _ => none


/-- Helper: with both date bounds unset, `filter_func` accepts every
record (the short-circuit `return True` at the top). -/
theorem filter_func_none_none (pr : PullRequest) :
    filter_func none none pr = some true := rfl

/-- Helper: with both bounds unset the date filter is the identity. -/
theorem date_filter_none_none (xs : List PullRequest) :
    date_filter none none xs = some xs := by
  induction xs with
  | nil => rfl
  | cons pr rest ih => simp [date_filter, filter_func_none_none, ih]

/-- Helper: the date filter distributes over list concatenation (and a
`TypeError` on either side is a `TypeError` of the whole). -/
theorem date_filter_append (o l : Option String) (xs ys : List PullRequest) :
    date_filter o l (xs ++ ys) =
      match date_filter o l xs, date_filter o l ys with
      | some a, some b => some (a ++ b)
      | _, _ => none := by
  induction xs with
  | nil =>
    simp only [List.nil_append, date_filter]
    cases date_filter o l ys <;> rfl
  | cons pr rest ih =>
    simp only [List.cons_append, date_filter]
    cases hf : filter_func o l pr with
    | none => rfl
    | some b =>
      rw [List.append_eq, ih]
      cases date_filter o l rest <;> cases date_filter o l ys <;> cases b <;> simp

/-- Claim C4: concatenating the per-page results of the date-range filter
in page order equals applying the filter once to the concatenation of all
pages, element for element and in order; and with both bounds unset the
filter returns its input unchanged. -/
theorem date_filter_pages_eq_filter_of_join (o l : Option String) :
    (∀ pages : List (List PullRequest),
      date_filter_pages o l pages = date_filter o l pages.flatten) ∧
    (∀ xs : List PullRequest, date_filter none none xs = some xs) := by
  constructor
  · intro pages
    induction pages with
    | nil => rfl
    | cons page rest ih =>
      simp only [date_filter_pages, List.flatten_cons, date_filter_append, ih]
  · exact date_filter_none_none

/-- Claim C2 counterexample: a rate-limited response carrying both
`Retry-After: 10` and `X-RateLimit-Reset: 1000`, observed at epoch second
900, makes the guard sleep 100 seconds — the reset-derived value, not the
`Retry-After` value 10 the claim requires. -/
theorem rate_limit_sleep_not_retry_after_precedence :
    rate_limit_sleep (some 10) (some 1000) 900 = 100 ∧ (100 : Int) ≠ 10 := by
  exact ⟨rfl, by decide⟩

/-- Claim C2 (amended): the sleep duration is `reset_epoch - now_epoch`
whenever `X-RateLimit-Reset` is present (it takes precedence over
`Retry-After`); otherwise the `Retry-After` value when present; otherwise
60 seconds. -/
theorem rate_limit_sleep_reset_precedence
    (retry_after x_rate_limit_reset : Option Int) (now_epoch : Int) :
    rate_limit_sleep retry_after x_rate_limit_reset now_epoch =
      match x_rate_limit_reset with
      | some reset_epoch => reset_epoch - now_epoch
      | none =>
        match retry_after with
        | some v => v
        | none => 60 := by
  cases x_rate_limit_reset <;> cases retry_after <;> rfl

/-- Claim C5 counterexample: a response with status 500 and a non-empty
body that is not valid JSON makes `Api.success` (with diagnostics on)
raise a `ValueError` from `response.json()` instead of returning `False` —
the claim's "never raises an exception" fails here. -/
theorem api_success_raises_on_invalid_json_body :
    Api_success ⟨some 500, some "oops", false⟩ 200 true
      = SuccessOutcome.valueError := rfl

/-- Claim C5 (amended): `Api.success` returns `True` iff the response's
status code equals the expected status; a malformed or absent response
yields `False` (the `AttributeError` is caught); and the only way it
raises is a `ValueError` from printing diagnostics: diagnostics enabled, a
present non-matching status, and a present non-empty body that is not
valid JSON. -/
theorem api_success_characterisation
    (r : PyResponse) (status_code : Nat) (output : Bool) :
    (Api_success r status_code output = SuccessOutcome.ret true ↔
      r.status_code = some status_code) ∧
    (Api_success r status_code output = SuccessOutcome.valueError ↔
      ((∃ sc, r.status_code = some sc ∧ sc ≠ status_code) ∧
       (∃ t, r.text = some t ∧ t ≠ "") ∧ output = true ∧ r.json_ok = false)) := by
  obtain ⟨sc, t, j⟩ := r
  cases sc with
  | none => simp [Api_success]
  | some sc =>
    by_cases hsc : sc = status_code
    · subst hsc
      simp [Api_success]
    · cases t with
      | none => simp [Api_success, hsc]
      | some t =>
        by_cases ht : t = ""
        · subst ht
          cases j <;> cases output <;> simp [Api_success, hsc]
        · cases j <;> cases output <;> simp [Api_success, hsc, ht]

/-- Claim C6: evaluating the header construction of `Api.__init__` at token
"token123" shows the `Authorization` value is the string "Bearer: token123"
— `Bearer` followed by a colon — which differs from the claimed form
"Bearer token123"; the `Accept` and default `User-Agent` headers are
attached as claimed. -/
theorem api_init_headers_bearer_colon :
    (Api_init_headers "token123" none).lookup "Authorization"
        = some ("Bearer: " ++ "token123") ∧
    ("Bearer: " ++ "token123" : String) ≠ "Bearer " ++ "token123" ∧
    (Api_init_headers "token123" none).lookup "Accept"
        = some "application/vnd.github+json" ∧
    (Api_init_headers "token123" none).lookup "User-Agent"
        = some "python-requests/2.32.3" := by
  refine ⟨by decide, by decide, by decide, by decide⟩

/-- Claim C7: a record whose raw payload has `closed_at` present but
`merged_at` absent: `PullRequest.closed` nevertheless returns `none`
(the source reads `merged_at`) and `isClosed()` returns `False`, against
the claim; and for a record with `merged_at` present but `closed_at`
absent, `closed` returns the *merged* timestamp.  The merged side behaves
as claimed. -/
theorem pullRequest_closed_reads_merged_at :
    (PullRequest.mk ⟨none, none, none, some "2024-03-01T00:00:00Z"⟩).closed
        = none ∧
    (PullRequest.mk ⟨none, none, none, some "2024-03-01T00:00:00Z"⟩).isClosed
        = false ∧
    (PullRequest.mk ⟨none, none, some "2024-02-01T00:00:00Z", none⟩).closed
        = some "2024-02-01T00:00:00Z" ∧
    (PullRequest.mk ⟨none, none, some "2024-02-01T00:00:00Z", none⟩).isMerged
        = true ∧
    (PullRequest.mk ⟨none, none, some "2024-02-01T00:00:00Z", none⟩).merged
        = some "2024-02-01T00:00:00Z" := by
  refine ⟨rfl, rfl, rfl, rfl, rfl⟩

/-- Claim C8: for a record that is neither merged nor closed the age is
taken against the evaluation instant `t`; the day count is the whole
number of days of `t - created` and the hours component is computed only
from the sub-day remainder (`diff.seconds / 3600`), not from the total
elapsed hours; in particular `created` = 2024-01-01T00:00:00 evaluated at
2024-01-02T01:30:00 (91800 seconds later) gives day count 1 and hour
remainder 1.5. -/
theorem age_hours_from_subday_remainder
    (pr : PullRequest) (created t : Int) (iso_to_epoch : String → Int)
    (h1 : pr.isMerged = false) (h2 : pr.isClosed = false) :
    age_instant pr t iso_to_epoch = t ∧
    86400 * age_days created t + timedelta_seconds (t - created)
        = t - created ∧
    0 ≤ timedelta_seconds (t - created) ∧
    timedelta_seconds (t - created) < 86400 ∧
    age_hours created t = (timedelta_seconds (t - created) : ℚ) / 3600 ∧
    age_days 0 91800 = 1 ∧ age_hours 0 91800 = 3 / 2 := by
  refine ⟨by simp [age_instant, h1, h2], ?_, ?_, ?_, rfl, by decide, ?_⟩
  · exact Int.fdiv_add_fmod (t - created) 86400
  · rw [timedelta_seconds, Int.fmod_eq_emod _ (by norm_num)]
    exact Int.emod_nonneg _ (by norm_num)
  · exact Int.fmod_lt_of_pos _ (by norm_num)
  · have h5400 : timedelta_seconds 91800 = 5400 := by decide
    show (timedelta_seconds (91800 - 0) : ℚ) / 3600 = 3 / 2
    norm_num [h5400]

/-- Witness for C8 at a concrete record and concrete instants. -/
theorem age_hours_from_subday_remainder_witness :
    age_instant (PullRequest.mk ⟨some "2024-01-01T00:00:00", some "2024-01-01T00:00:00", none, none⟩) 91800 (fun _ => 0) = 91800 ∧
    86400 * age_days 0 91800 + timedelta_seconds (91800 - 0) = 91800 - 0 ∧
    0 ≤ timedelta_seconds (91800 - 0) ∧
    timedelta_seconds (91800 - 0) < 86400 ∧
    age_hours 0 91800 = (timedelta_seconds (91800 - 0) : ℚ) / 3600 ∧
    age_days 0 91800 = 1 ∧ age_hours 0 91800 = 3 / 2 :=
  age_hours_from_subday_remainder
    (PullRequest.mk ⟨some "2024-01-01T00:00:00", some "2024-01-01T00:00:00", none, none⟩)
    0 91800 (fun _ => 0) rfl rfl

/-- Claim C9: the stored header dict of an `Api` object is unchanged by a
`__send` with a per-call version override, and a later call giving no
override carries no `X-GitHub-Api-Version` header (provided the object was
built without one, as `Api.__init__` builds it). -/
theorem api_send_version_does_not_leak (s : ApiState) (v : String)
    (h : s.headers.lookup "X-GitHub-Api-Version" = none) :
    (Api_send s (some v)).2.headers = s.headers ∧
    (Api_send (Api_send s (some v)).2 none).1 = s.headers ∧
    ((Api_send (Api_send s (some v)).2 none).1).lookup "X-GitHub-Api-Version"
        = none := by
  exact ⟨rfl, rfl, h⟩

/-- Witness for C9 on the header set `Api.__init__` builds for token
"token123". -/
theorem api_send_version_does_not_leak_witness :
    (Api_send ⟨Api_init_headers "token123" none⟩ (some "2022-11-28")).2.headers
        = Api_init_headers "token123" none ∧
    (Api_send (Api_send ⟨Api_init_headers "token123" none⟩ (some "2022-11-28")).2 none).1
        = Api_init_headers "token123" none ∧
    ((Api_send (Api_send ⟨Api_init_headers "token123" none⟩ (some "2022-11-28")).2 none).1).lookup
        "X-GitHub-Api-Version" = none :=
  api_send_version_does_not_leak ⟨Api_init_headers "token123" none⟩
    "2022-11-28" (by decide)

/-- Helper: `filter_func` cannot raise when the record has an
`updated_at` value. -/
theorem filter_func_isSome (o l : Option String) (pr : PullRequest)
    (h : pr.updated.isSome = true) : (filter_func o l pr).isSome = true := by
  obtain ⟨u, hu⟩ := Option.isSome_iff_exists.mp h
  cases o <;> cases l <;>
    simp only [filter_func, filter_func_latest, hu, Option.isNone_none,
      Option.isNone_some, Bool.and_true, Bool.and_false, Bool.true_and,
      Bool.false_and] <;>
    repeat' first
      | rfl
      | split

/-- Helper: the date filter cannot raise when every record has an
`updated_at` value. -/
theorem date_filter_isSome (o l : Option String) (xs : List PullRequest)
    (h : ∀ pr ∈ xs, pr.updated.isSome = true) :
    ∃ r, date_filter o l xs = some r := by
  induction xs with
  | nil => exact ⟨[], rfl⟩
  | cons pr rest ih =>
    obtain ⟨b, hb⟩ := Option.isSome_iff_exists.mp
      (filter_func_isSome o l pr (h pr (by simp)))
    obtain ⟨r, hr⟩ := ih (fun q hq => h q (by simp [hq]))
    exact ⟨if b then pr :: r else r, by simp [date_filter, hb, hr]⟩

/-- Helper: a non-success page response makes the loop body raise
`GetPullRequestsError` at once. -/
theorem page_step_of_bad_status (per_page : Int) (o l : Option String)
    (resp : Response) (acc : List PullRequest)
    (h : resp.status_code ≠ 200) :
    page_step per_page o l resp acc = PageStep.halt PRResult.fetchError := by
  simp [page_step, h]

/-- Helper: a `getLast?` hit is a member of the list. -/
theorem mem_of_getLast?_eq {α : Type} (xs : List α) (a : α)
    (h : xs.getLast? = some a) : a ∈ xs := by
  obtain ⟨hne, heq⟩ :=
    List.mem_getLast?_eq_getLast (l := xs) (x := a) (by simp [h])
  exact heq ▸ List.getLast_mem hne

/-- Helper: on a well-formed successful page whose unfiltered body meets
the stop condition, the loop body breaks and returns the updated
accumulator. -/
theorem page_step_stop (per_page : Int) (o l : Option String)
    (resp : Response) (acc : List PullRequest)
    (hstatus : resp.status_code = 200)
    (hupd : ∀ r ∈ resp.body, r.updated_at.isSome = true)
    (hstop : stop_body per_page o resp.body = true) :
    ∃ acc2, page_step per_page o l resp acc = PageStep.halt (PRResult.ok acc2) := by
  have hupd2 : ∀ pr ∈ resp.body.map PullRequest.mk, pr.updated.isSome = true := by
    intro pr hpr
    obtain ⟨r, hr, rfl⟩ := List.mem_map.mp hpr
    exact hupd r hr
  obtain ⟨flt, hflt⟩ := date_filter_isSome o l (resp.body.map PullRequest.mk) hupd2
  refine ⟨if 0 < (resp.body.map PullRequest.mk).length then acc ++ flt else acc, ?_⟩
  simp only [page_step]
  rw [if_neg (by simp [hstatus])]
  have hscrut : (if 0 < (resp.body.map PullRequest.mk).length then
        (date_filter o l (resp.body.map PullRequest.mk)).map (fun x => acc ++ x)
      else some acc)
      = some (if 0 < (resp.body.map PullRequest.mk).length then acc ++ flt
          else acc) := by
    by_cases hl : 0 < (resp.body.map PullRequest.mk).length
    · rw [if_pos hl, if_pos hl, hflt]
      rfl
    · rw [if_neg hl, if_neg hl]
  rw [hscrut]
  by_cases hcnt : (((resp.body.map PullRequest.mk).length : Int) < per_page)
  · simp only [hcnt, if_true]
  · have hcnt2 : ¬ ((resp.body.length : Int) < per_page) := by
      simpa using hcnt
    cases o with
    | none =>
      exfalso
      simp [stop_body, hcnt2] at hstop
    | some o2 =>
      cases hgl : resp.body.getLast? with
      | none =>
        exfalso
        simp [stop_body, hcnt2, hgl] at hstop
      | some last =>
        cases hu2 : last.updated_at with
        | none =>
          exfalso
          simp [stop_body, hcnt2, hgl, hu2] at hstop
        | some u =>
          have hlt : pyStrLt u o2 = true := by
            simpa [stop_body, hcnt2, hgl, hu2] using hstop
          simp [hcnt, List.getLast?_map, hgl, PullRequest.updated, hu2, hlt]

/-- Helper: on a well-formed successful page whose unfiltered body does not
meet the stop condition (and with a positive `per_page`), the loop body
proceeds to the next page. -/
theorem page_step_go (per_page : Int) (o l : Option String)
    (resp : Response) (acc : List PullRequest)
    (hpp : 1 ≤ per_page)
    (hstatus : resp.status_code = 200)
    (hupd : ∀ r ∈ resp.body, r.updated_at.isSome = true)
    (hstop : stop_body per_page o resp.body = false) :
    ∃ acc2, page_step per_page o l resp acc = PageStep.next acc2 := by
  have hupd2 : ∀ pr ∈ resp.body.map PullRequest.mk, pr.updated.isSome = true := by
    intro pr hpr
    obtain ⟨r, hr, rfl⟩ := List.mem_map.mp hpr
    exact hupd r hr
  obtain ⟨flt, hflt⟩ := date_filter_isSome o l (resp.body.map PullRequest.mk) hupd2
  have hcnt2 : ¬ ((resp.body.length : Int) < per_page) := by
    intro hlt
    simp [stop_body, hlt] at hstop
  have hcnt : ¬ (((resp.body.map PullRequest.mk).length : Int) < per_page) := by
    simpa using hcnt2
  have hge : per_page ≤ (resp.body.length : Int) := not_lt.mp hcnt2
  have hne : resp.body ≠ [] := by
    intro hnil
    apply hcnt2
    rw [hnil]
    simpa using lt_of_lt_of_le Int.zero_lt_one hpp
  refine ⟨if 0 < (resp.body.map PullRequest.mk).length then acc ++ flt else acc, ?_⟩
  simp only [page_step]
  rw [if_neg (by simp [hstatus])]
  have hscrut : (if 0 < (resp.body.map PullRequest.mk).length then
        (date_filter o l (resp.body.map PullRequest.mk)).map (fun x => acc ++ x)
      else some acc)
      = some (if 0 < (resp.body.map PullRequest.mk).length then acc ++ flt
          else acc) := by
    by_cases hl : 0 < (resp.body.map PullRequest.mk).length
    · rw [if_pos hl, if_pos hl, hflt]
      rfl
    · rw [if_neg hl, if_neg hl]
  rw [hscrut]
  cases o with
  | none => simp [hcnt, hge]
  | some o2 =>
    cases hgl : resp.body.getLast? with
    | none =>
      exact absurd (List.getLast?_eq_none_iff.mp hgl) hne
    | some last =>
      have hlast : last ∈ resp.body := mem_of_getLast?_eq resp.body last hgl
      obtain ⟨u, hu2⟩ := Option.isSome_iff_exists.mp (hupd last hlast)
      have hlt : pyStrLt u o2 = false := by
        have hxx := hstop
        simp [stop_body, hgl, hu2] at hxx
        exact hxx.2
      simp [hcnt, hge, List.getLast?_map, hgl, PullRequest.updated, hu2, hlt]

/-- Helper: with a positive `per_page`, the loop body can never evaluate
`partial_pull_reqs[-1]` on an empty page: an empty page already satisfies
`count < per_page` and breaks first. -/
theorem page_step_ne_indexError (per_page : Int) (o l : Option String)
    (resp : Response) (acc : List PullRequest) (hpp : 1 ≤ per_page) :
    page_step per_page o l resp acc ≠ PageStep.halt PRResult.indexError := by
  simp only [page_step]
  by_cases h : resp.status_code = 200
  case neg => simp [h]
  case pos =>
    rw [if_neg (by simp [h])]
    cases hscrut : (if 0 < (resp.body.map PullRequest.mk).length then
        (date_filter o l (resp.body.map PullRequest.mk)).map (fun x => acc ++ x)
      else some acc) with
    | none => simp
    | some acc2 =>
      simp only [List.length_map]
      by_cases hcnt : ((resp.body.length : Int) < per_page)
      · rw [if_pos hcnt]
        simp
      · rw [if_neg hcnt]
        have hge : per_page ≤ (resp.body.length : Int) := not_lt.mp hcnt
        have hne : resp.body ≠ [] := by
          intro hnil
          rw [hnil] at hge
          simp at hge
          omega
        cases o with
        | none => simp
        | some o2 =>
          rw [List.getLast?_map]
          cases hgl : resp.body.getLast? with
          | none => exact absurd (List.getLast?_eq_none_iff.mp hgl) hne
          | some last =>
            simp only [Option.map_some']
            cases hu : last.updated_at with
            | none => simp [PullRequest.updated, hu]
            | some u =>
              simp only [PullRequest.updated, hu]
              split <;> simp

/-- Helper (loop invariant for C10): with a positive `per_page` the
paginated loop never raises `IndexError`, from any page and accumulator. -/
theorem get_pull_requests_aux_ne_indexError (fetch : Nat → Response)
    (per_page : Int) (o l : Option String) (hpp : 1 ≤ per_page) :
    ∀ fuel page acc,
      (get_pull_requests_aux fetch per_page o l page acc fuel).2
        ≠ PRResult.indexError := by
  intro fuel
  induction fuel with
  | zero =>
    intro page acc
    simp [get_pull_requests_aux]
  | succ fuel ih =>
    intro page acc
    simp only [get_pull_requests_aux]
    cases hst : page_step per_page o l (fetch (page + 1)) acc with
    | halt res =>
      intro hres
      exact page_step_ne_indexError per_page o l (fetch (page + 1)) acc hpp
        (by rw [hst]; exact congrArg PageStep.halt hres)
    | next acc2 =>
      exact ih (page + 1) acc2

/-- Helper (loop invariant for C3): if any requested page of a run came
back with a non-success status, the run raises `GetPullRequestsError`. -/
theorem get_pull_requests_aux_fetchError (fetch : Nat → Response)
    (per_page : Int) (o l : Option String) :
    ∀ fuel page acc p,
      p ∈ (get_pull_requests_aux fetch per_page o l page acc fuel).1 →
      (fetch p).status_code ≠ 200 →
      (get_pull_requests_aux fetch per_page o l page acc fuel).2
        = PRResult.fetchError := by
  intro fuel
  induction fuel with
  | zero =>
    intro page acc p hp
    simp [get_pull_requests_aux] at hp
  | succ fuel ih =>
    intro page acc p hp hbad
    simp only [get_pull_requests_aux] at hp ⊢
    cases hst : page_step per_page o l (fetch (page + 1)) acc with
    | halt res =>
      rw [hst] at hp
      have hp2 : p ∈ [page + 1] := hp
      have hp3 : p = page + 1 := by simpa using hp2
      subst hp3
      have hfe := page_step_of_bad_status per_page o l (fetch (page + 1)) acc hbad
      have hres : PageStep.halt res = PageStep.halt PRResult.fetchError :=
        hst.symm.trans hfe
      show res = PRResult.fetchError
      simpa using hres
    | next acc2 =>
      rw [hst] at hp
      have hp2 : p ∈ (page + 1) ::
          (get_pull_requests_aux fetch per_page o l (page + 1) acc2 fuel).1 := hp
      rcases List.mem_cons.mp hp2 with hp3 | hp3
      · exfalso
        subst hp3
        have hfe := page_step_of_bad_status per_page o l (fetch (page + 1)) acc hbad
        rw [hst] at hfe
        exact PageStep.noConfusion hfe
      · show (get_pull_requests_aux fetch per_page o l (page + 1) acc2 fuel).2
          = PRResult.fetchError
        exact ih (page + 1) acc2 p hp3 hbad

/-- Helper (loop invariant for C1): as long as every page strictly before
the first stopping page `K` is successful, well formed and non-stopping,
the loop started below `K` with enough fuel requests exactly the pages up
to and including `K` and returns normally. -/
theorem get_pull_requests_aux_range (fetch : Nat → Response) (per_page : Int)
    (o l : Option String) (K : Nat)
    (hpp : 1 ≤ per_page)
    (hKstop : stop_body per_page o (fetch K).body = true)
    (hbefore : ∀ k, 1 ≤ k → k < K → stop_body per_page o (fetch k).body = false)
    (hstatus : ∀ k, 1 ≤ k → k ≤ K → (fetch k).status_code = 200)
    (hupd : ∀ k, 1 ≤ k → k ≤ K → ∀ r ∈ (fetch k).body, r.updated_at.isSome = true) :
    ∀ fuel page acc, page < K → K ≤ page + fuel →
      ∃ recs, get_pull_requests_aux fetch per_page o l page acc fuel
        = (List.range' (page + 1) (K - page), PRResult.ok recs) := by
  intro fuel
  induction fuel with
  | zero =>
    intro page acc h1 h2
    omega
  | succ fuel ih =>
    intro page acc h1 h2
    by_cases hK : page + 1 = K
    · obtain ⟨acc2, hstep⟩ := page_step_stop per_page o l (fetch (page + 1)) acc
        (hstatus (page + 1) (by omega) (by omega))
        (hupd (page + 1) (by omega) (by omega))
        (by rw [hK]; exact hKstop)
      refine ⟨acc2, ?_⟩
      simp only [get_pull_requests_aux, hstep]
      have hK1 : K - page = 1 := by omega
      rw [hK1, List.range'_one]
    · obtain ⟨acc2, hstep⟩ := page_step_go per_page o l (fetch (page + 1)) acc hpp
        (hstatus (page + 1) (by omega) (by omega))
        (hupd (page + 1) (by omega) (by omega))
        (hbefore (page + 1) (by omega) (by omega))
      obtain ⟨recs, hrec⟩ := ih (page + 1) acc2 (by omega) (by omega)
      refine ⟨recs, ?_⟩
      simp only [get_pull_requests_aux, hstep, hrec]
      have hK2 : K - page = (K - (page + 1)) + 1 := by omega
      rw [hK2, List.range'_succ]

/-- Claim C1: for a transport whose pages up to the first stopping page
`K` are successful and well formed (every record carries `updated_at`),
with `per_page ≥ 1` and enough fuel, `get_pull_requests` requests exactly
the consecutive pages `1, …, K`, where `K` is the first page whose
unfiltered record count is strictly below `per_page` or (when
`oldest_date` is given) whose last record's `updated_at` is strictly
earlier than `oldest_date.isoformat()`; no later page is requested and the
call returns normally. -/
theorem get_pull_requests_requests_pages_up_to_first_stop
    (fetch : Nat → Response) (oldest_date latest_date : Option String)
    (per_page : Int) (K fuel : Nat)
    (hpp : 1 ≤ per_page) (hK1 : 1 ≤ K)
    (hKstop : stop_body per_page oldest_date (fetch K).body = true)
    (hbefore : ∀ k, 1 ≤ k → k < K →
      stop_body per_page oldest_date (fetch k).body = false)
    (hstatus : ∀ k, 1 ≤ k → k ≤ K → (fetch k).status_code = 200)
    (hupd : ∀ k, 1 ≤ k → k ≤ K →
      ∀ r ∈ (fetch k).body, r.updated_at.isSome = true)
    (hfuel : K ≤ fuel) :
    (get_pull_requests fetch oldest_date latest_date per_page fuel).1
      = List.range' 1 K ∧
    ∃ recs, (get_pull_requests fetch oldest_date latest_date per_page fuel).2
      = PRResult.ok recs := by
  obtain ⟨recs, h⟩ := get_pull_requests_aux_range fetch per_page oldest_date
    latest_date K hpp hKstop hbefore hstatus hupd fuel 0 [] (by omega) (by omega)
  constructor
  · show (get_pull_requests_aux fetch per_page oldest_date latest_date 0 [] fuel).1
      = List.range' 1 K
    rw [h]
    simp
  · refine ⟨recs, ?_⟩
    show (get_pull_requests_aux fetch per_page oldest_date latest_date 0 [] fuel).2
      = PRResult.ok recs
    rw [h]


/-- A two-page mock transport: page 1 is full (one record, `per_page` 1),
page 2 is empty and therefore the first stopping page. -/
def fetch_two_pages : Nat → Response := fun p =>
  if p = 1 then
    Response.mk 200 [Raw.mk (some "2024-01-01T00:00:00Z")
      (some "2024-01-02T00:00:00Z") none none]
  else Response.mk 200 []

/-- Witness for C1 on the two-page mock transport. -/
theorem get_pull_requests_requests_pages_up_to_first_stop_witness :
    (get_pull_requests fetch_two_pages none none 1 3).1 = List.range' 1 2 ∧
    ∃ recs, (get_pull_requests fetch_two_pages none none 1 3).2
      = PRResult.ok recs :=
  get_pull_requests_requests_pages_up_to_first_stop fetch_two_pages none none
    1 2 3 (by decide) (by decide) (by decide)
    (by
      intro k h1 h2
      have hk : k = 1 := by omega
      subst hk
      decide)
    (by
      intro k h1 h2
      have hk : k = 1 ∨ k = 2 := by omega
      rcases hk with hk | hk <;> subst hk <;> decide)
    (by
      intro k h1 h2
      have hk : k = 1 ∨ k = 2 := by omega
      rcases hk with hk | hk <;> subst hk <;> decide)
    (by decide)

/-- Claim C3: whenever some requested page of a run came back with a
status other than the expected 200, the whole call raises
`GetPullRequestsError` — an outcome that carries no records, so the
records accumulated from earlier successful pages are discarded. -/
theorem get_pull_requests_fails_on_bad_page (fetch : Nat → Response)
    (oldest_date latest_date : Option String) (per_page : Int) (fuel : Nat)
    (h : ∃ p ∈ (get_pull_requests fetch oldest_date latest_date per_page fuel).1,
      (fetch p).status_code ≠ 200) :
    (get_pull_requests fetch oldest_date latest_date per_page fuel).2
      = PRResult.fetchError := by
  obtain ⟨p, hp, hbad⟩ := h
  exact get_pull_requests_aux_fetchError fetch per_page oldest_date latest_date
    fuel 0 [] p hp hbad

/-- Witness for C3: a transport answering 500 on every page. -/
theorem get_pull_requests_fails_on_bad_page_witness :
    (get_pull_requests (fun _ => Response.mk 500 []) none none 30 5).2
      = PRResult.fetchError :=
  get_pull_requests_fails_on_bad_page (fun _ => Response.mk 500 []) none none
    30 5 ⟨1, by decide, by decide⟩

/-- Claim C10: with `per_page ≥ 1` the termination check never evaluates
`partial_pull_reqs[-1]` on an empty page — an empty page already satisfies
`count < per_page` — so the run can never end in `IndexError`. -/
theorem get_pull_requests_never_indexError (fetch : Nat → Response)
    (oldest_date latest_date : Option String) (per_page : Int) (fuel : Nat)
    (hpp : 1 ≤ per_page) :
    (get_pull_requests fetch oldest_date latest_date per_page fuel).2
      ≠ PRResult.indexError :=
  get_pull_requests_aux_ne_indexError fetch per_page oldest_date latest_date
    hpp fuel 0 []

/-- Witness for C10 on a transport of empty successful pages with the
default `per_page` of 30. -/
theorem get_pull_requests_never_indexError_witness :
    (get_pull_requests (fun _ => Response.mk 200 []) (some "2024-01-01") none 30 4).2
      ≠ PRResult.indexError :=
  get_pull_requests_never_indexError (fun _ => Response.mk 200 [])
    (some "2024-01-01") none 30 4 (by decide)
